import Mathlib

/-!
Verification of the CON_Hall_Booking service (src/app.py).

The repository file `app.py` contains both sides of a git merge
(`HEAD` and `ebbb800`), so every route exists in two variants.  We embed
the `ebbb800` variant of `check_room_availability` (lines 107-129) and of
`book_room` (lines 163-198) as the primary definitions, and the `HEAD`
variant of `check_room_availability` (lines 32-47) as
`check_room_availability_v1`; the admin routes (`approve_booking`,
`reject_booking`, `delete_booking`) behave identically in both variants.

Modelling choices, all stated where used:
  * Dates and times are Python strings compared lexicographically; we use
    Lean `String` with its codepoint-lexicographic order, which agrees with
    Python's comparison on ASCII strings.
  * The Firestore collection `bookings` is an association list
    `List (Nat × Booking)` of (document id, document); generated document
    ids are modelled by a counter `nextId`.
  * The Firestore query of `check_room_availability` is embedded by its
    documented semantics: it yields exactly the documents matching all
    `where` filters (`array_contains_any`, `status ==`, `startDate <=`,
    `endDate >=`).
  * Firestore's `DocumentReference.update` raises `NotFound` when the
    document does not exist, and `DocumentReference.delete` is idempotent:
    it succeeds whether or not the document exists.  The admin routes are
    embedded with exactly these collaborator semantics.
  * `socketio.emit("update_events")` is modelled as a Boolean "notifier
    fired" component of each operation's result.
-/

/-- Python's `a < b` on strings: lexicographic comparison by code point,
embedded as the lexicographic order on the strings' character lists. -/
def sLt (a b : String) : Bool := decide (a.data < b.data)

/-- Python's `a <= b` on strings, i.e. `¬ (b < a)` for the total order. -/
def sLe (a b : String) : Bool := !(decide (b.data < a.data))

/-- Booking status enum: `"pending" | "approved" | "rejected"` strings in
the Firestore documents. -/
inductive BStatus where
  | pending
  | approved
  | rejected
deriving DecidableEq, Repr

/-- A document of the `bookings` collection, with the fields written by
`book_room` (app.py lines 181-193 / 267-279).  `startDate`, `endDate`,
`startTime`, `endTime` are modelled as present strings (requests whose
date/time fields are absent are outside this model). -/
structure Booking where
  eventName : Option String
  rooms : List String
  startDate : String
  endDate : String
  startTime : String
  endTime : String
  participants : Nat
  department : Option String
  notes : Option String
  status : BStatus
  createdAt : String
deriving DecidableEq, Repr

/-- A document of the `rooms` collection (app.py line 103). -/
structure Room where
  name : String
  available : Bool
deriving DecidableEq, Repr

/-- The backing store: the two Firestore collections, plus a counter
modelling generation of fresh document ids for `bookings`. -/
structure DB where
  rooms : List (Nat × Room)
  bookings : List (Nat × Booking)
  nextId : Nat
deriving DecidableEq, Repr

def emptyDB : DB := { rooms := [], bookings := [], nextId := 0 }

/-- The `array_contains_any` filter of app.py line 112: the booking's
`rooms` array contains at least one of the queried room names. -/
def roomsIntersect (queryRooms bookingRooms : List String) : Bool :=
  queryRooms.any (fun r => bookingRooms.contains r)

/-- The Firestore query of `check_room_availability` (app.py lines
110-116): `rooms array_contains_any`, `status == "approved"`,
`startDate <= end_date`, `endDate >= start_date`. -/
def queryFilter (queryRooms : List String) (start_date end_date : String)
    (b : Booking) : Bool :=
  roomsIntersect queryRooms b.rooms && (b.status == .approved) &&
    sLe b.startDate end_date && sLe start_date b.endDate

def bookingsQuery (db : DB) (queryRooms : List String)
    (start_date end_date : String) : List Booking :=
  (db.bookings.map Prod.snd).filter (queryFilter queryRooms start_date end_date)

/-- The time test of app.py line 122:
`not (end_time <= b["startTime"] or start_time >= b["endTime"])`. -/
def timeConflict (start_time end_time bStartTime bEndTime : String) : Bool :=
  !(sLe end_time bStartTime || sLe bEndTime start_time)

/-- The time test of the `HEAD` variant, app.py lines 44-45:
`start_time < b['endTime'] and end_time > b['startTime']`. -/
def timeConflict_v1 (start_time end_time bStartTime bEndTime : String) : Bool :=
  sLt start_time bEndTime && sLt bStartTime end_time

/-- The loop of app.py lines 120-124: return `(False, msg)` on the first
candidate whose time range conflicts, else `(True, "Available")`. -/
def scanBookings (queryRooms : List String) (start_time end_time : String) :
    List Booking → Bool × String
  | [] => (true, "Available")
  | b :: bs =>
    if timeConflict start_time end_time b.startTime b.endTime then
      (false, "Room(s) " ++ toString queryRooms ++ " already booked for overlapping time")
    else
      scanBookings queryRooms start_time end_time bs

/-- `check_room_availability` (app.py lines 107-129, `ebbb800` variant),
with the Firestore query served successfully. -/
def check_room_availability (db : DB) (rooms : List String)
    (start_date end_date start_time end_time : String) : Bool × String :=
  scanBookings rooms start_time end_time (bookingsQuery db rooms start_date end_date)

/-- Outcomes of the Firestore query as raised to the `try` block of
`check_room_availability`: `FailedPrecondition` (missing index) or any
other exception. -/
inductive QueryErr where
  | failedPrecondition (msg : String)
  | other (msg : String)
deriving DecidableEq, Repr

/-- `check_room_availability` including its exception handlers (app.py
lines 126-129): the query outcome is passed explicitly. -/
def check_room_availability_q (q : Except QueryErr DB) (rooms : List String)
    (start_date end_date start_time end_time : String) : Bool × String :=
  match q with
  | .error (.failedPrecondition m) => (false, "Database index missing: " ++ m)
  | .error (.other m) => (false, "Unexpected error: " ++ m)
  | .ok db => check_room_availability db rooms start_date end_date start_time end_time

/-- The `HEAD` variant `check_room_availability` (app.py lines 32-47):
one `array_contains` query per room, returning `(False, msg)` on the first
time conflict and `(True, "")` after the loop. -/
def check_room_availability_v1 (db : DB) (room_ids : List String)
    (start_date end_date start_time end_time : String) : Bool × String :=
  match room_ids with
  | [] => (true, "")
  | room_id :: rest =>
    let candidates := (db.bookings.map Prod.snd).filter (fun b =>
      b.rooms.contains room_id && (b.status == .approved) &&
        sLe b.startDate end_date && sLe start_date b.endDate)
    match candidates.find? (fun b =>
        timeConflict_v1 start_time end_time b.startTime b.endTime) with
    | some _ => (false, "Room " ++ room_id ++ " is already booked for this time slot")
    | none => check_room_availability_v1 db rest start_date end_date start_time end_time

/-- The JSON body of a `/book` request, after `data.get`: `rooms` defaults
to `[]`; date/time fields are modelled as present strings. -/
structure BookRequest where
  eventName : Option String
  rooms : List String
  startDate : String
  endDate : String
  startTime : String
  endTime : String
  participants : Nat
  department : Option String
  notes : Option String
deriving DecidableEq, Repr

/-- Result of the `/book` route. -/
inductive BookResult where
  | missingData
  | conflict (msg : String)
  | success (id : Nat) (b : Booking)
deriving DecidableEq, Repr

/-- `book_room` (app.py lines 163-198): reject a missing body, run the
availability check, on conflict return the reason with the store
untouched, otherwise persist a `pending` booking stamped with the current
time and fire the notifier.  The returned `Bool` is whether
`socketio.emit("update_events")` ran. -/
def book_room (db : DB) (data : Option BookRequest) (now : String) :
    BookResult × DB × Bool :=
  match data with
  | none => (.missingData, db, false)
  | some d =>
    let res := check_room_availability db d.rooms d.startDate d.endDate d.startTime d.endTime
    if !res.1 then
      (.conflict res.2, db, false)
    else
      let id := db.nextId
      let booking : Booking :=
        { eventName := d.eventName
          rooms := d.rooms
          startDate := d.startDate
          endDate := d.endDate
          startTime := d.startTime
          endTime := d.endTime
          participants := d.participants
          department := d.department
          notes := d.notes
          status := .pending
          createdAt := now }
      (.success id booking,
        { db with bookings := db.bookings ++ [(id, booking)], nextId := db.nextId + 1 },
        true)

/-- Result of the admin routes. -/
inductive AdminResult where
  | ok
  | missingId
  | notFound
deriving DecidableEq, Repr

def hasBooking (db : DB) (id : Nat) : Bool :=
  db.bookings.any (fun e => e.1 == id)

/-- The effect of `document(id).update({"status": s})` on the collection. -/
def setStatus (id : Nat) (s : BStatus) (e : Nat × Booking) : Nat × Booking :=
  if e.1 == id then (e.1, { e.2 with status := s }) else e

/-- `approve_booking` (app.py lines 314-321 / 369-376): unconditionally
`update({"status": "approved"})`.  Firestore `update` raises `NotFound`
when the document does not exist, in which case the handler returns an
error and the notifier does not fire. -/
def approve_booking (db : DB) (id : Option Nat) : AdminResult × DB × Bool :=
  match id with
  | none => (.missingId, db, false)
  | some i =>
    if hasBooking db i then
      (.ok, { db with bookings := db.bookings.map (setStatus i .approved) }, true)
    else
      (.notFound, db, false)

/-- `reject_booking` (app.py lines 324-331 / 379-386): same as approve
with `"rejected"`. -/
def reject_booking (db : DB) (id : Option Nat) : AdminResult × DB × Bool :=
  match id with
  | none => (.missingId, db, false)
  | some i =>
    if hasBooking db i then
      (.ok, { db with bookings := db.bookings.map (setStatus i .rejected) }, true)
    else
      (.notFound, db, false)

/-- `delete_booking` (app.py lines 334-341): `document(id).delete()`.
Firestore `delete` is idempotent — it succeeds whether or not the
document exists — so the route reports success for any id. -/
def delete_booking (db : DB) (id : Option Nat) : AdminResult × DB × Bool :=
  match id with
  | none => (.missingId, db, false)
  | some i =>
    (.ok, { db with bookings := db.bookings.filter (fun e => !(e.1 == i)) }, true)

/-- One lifecycle operation against the store. -/
inductive Op where
  | create (req : BookRequest) (now : String)
  | approve (id : Nat)
  | reject (id : Nat)
  | del (id : Nat)
deriving DecidableEq, Repr

def applyOp (db : DB) : Op → DB
  | .create req now => (book_room db (some req) now).2.1
  | .approve id => (approve_booking db (some id)).2.1
  | .reject id => (reject_booking db (some id)).2.1
  | .del id => (delete_booking db (some id)).2.1

def runOps (db : DB) : List Op → DB
  | [] => db
  | op :: ops => runOps (applyOp db op) ops

/-- The conflict relation of the spec's invariant, with the tests of the
code: both approved, room sets intersect, inclusive date overlap and
half-open time overlap. -/
def approvedConflict (a b : Booking) : Bool :=
  (a.status == .approved) && (b.status == .approved) &&
    roomsIntersect a.rooms b.rooms &&
    (sLe a.startDate b.endDate && sLe b.startDate a.endDate) &&
    timeConflict a.startTime a.endTime b.startTime b.endTime

/-- No two distinct stored bookings are in `approvedConflict`. -/
def conflictFree (db : DB) : Prop :=
  db.bookings.Pairwise (fun x y => approvedConflict x.2 y.2 = false)

instance (db : DB) : Decidable (conflictFree db) := by
  unfold conflictFree; infer_instance

/-- Concrete data used in counterexamples and witnesses. -/
def bookingA : Booking :=
  { eventName := some "Standup", rooms := ["ARES"],
    startDate := "2024-01-01", endDate := "2024-01-01",
    startTime := "09:00", endTime := "10:00",
    participants := 5, department := none, notes := none,
    status := .approved, createdAt := "2024-01-01T00:00:00" }

def bookingRejected : Booking :=
  { bookingA with eventName := some "Retro", status := .rejected }

def dbOneApproved : DB := { rooms := [], bookings := [(0, bookingA)], nextId := 1 }

def dbOneRejected : DB := { rooms := [], bookings := [(0, bookingRejected)], nextId := 1 }

def reqA : BookRequest :=
  { eventName := some "Standup", rooms := ["ARES"],
    startDate := "2024-01-01", endDate := "2024-01-01",
    startTime := "09:00", endTime := "10:00",
    participants := 5, department := none, notes := none }

def reqOverlap : BookRequest :=
  { reqA with eventName := some "Clash", startTime := "09:30", endTime := "10:30" }

def reqNoRooms : BookRequest :=
  { eventName := some "Ghost", rooms := [],
    startDate := "2024-02-01", endDate := "2024-02-01",
    startTime := "09:00", endTime := "10:00",
    participants := 1, department := none, notes := none }

def bookingGhost : Booking :=
  { eventName := some "Ghost", rooms := [],
    startDate := "2024-02-01", endDate := "2024-02-01",
    startTime := "09:00", endTime := "10:00",
    participants := 1, department := none, notes := none,
    status := .pending, createdAt := "2024-02-01T08:00:00" }

/-- Well-formedness of the store as a document collection: distinct
document ids, all below the id-generation counter.  Any Firestore
collection satisfies this (document ids are unique and freshly
generated). -/
def WFdb (db : DB) : Prop :=
  db.bookings.Pairwise (fun x y => x.1 ≠ y.1) ∧ ∀ e ∈ db.bookings, e.1 < db.nextId

instance (db : DB) : Decidable (WFdb db) := by
  unfold WFdb; infer_instance

/-- An approval is "safe" when the booking being approved conflicts with
no other currently approved booking — the hardened approval contract of
spec §9; the code performs no such check. -/
def approveSafe (db : DB) (id : Nat) : Bool :=
  db.bookings.all fun x =>
    (!(x.1 == id)) ||
    db.bookings.all fun y =>
      (y.1 == id) ||
      (!approvedConflict { x.2 with status := .approved } y.2 &&
       !approvedConflict y.2 { x.2 with status := .approved })

/-- Every `approve` in the sequence is safe at the moment it runs. -/
def safeOpsB : DB → List Op → Bool
  | _, [] => true
  | db, op :: ops =>
    (match op with
     | .approve id => approveSafe db id
     | _ => true) && safeOpsB (applyOp db op) ops

/-- The operation sequence of the C1 counterexample: two overlapping
requests for the same room are both created while neither is approved
(so the availability check passes for both), then both are approved. -/
def conflictOps : List Op :=
  [Op.create reqA "2024-01-01T00:00:00",
   Op.create reqOverlap "2024-01-01T00:01:00",
   Op.approve 0,
   Op.approve 1]

/-- A sequence whose single approval is safe. -/
def safeOpsExample : List Op :=
  [Op.create reqA "2024-01-01T00:00:00", Op.approve 0]

/-! ## Helper lemmas -/

theorem timeConflict_eq (st et bst bet : String) :
    timeConflict st et bst bet = (sLt st bet && sLt bst et) := by
  simp [timeConflict, sLe, sLt, Bool.and_comm]

theorem timeConflict_v1_eq (st et bst bet : String) :
    timeConflict_v1 st et bst bet = (sLt st bet && sLt bst et) := rfl

theorem bookingsQuery_empty_rooms (db : DB) (sd ed : String) :
    bookingsQuery db [] sd ed = [] := by
  simp [bookingsQuery, queryFilter, roomsIntersect]

theorem scanBookings_false_iff (rooms : List String) (st et : String)
    (bs : List Booking) :
    (scanBookings rooms st et bs).1 = false ↔
      ∃ b ∈ bs, timeConflict st et b.startTime b.endTime = true := by
  induction bs with
  | nil => simp [scanBookings]
  | cons b rest ih =>
    by_cases h : timeConflict st et b.startTime b.endTime = true
    · simp [scanBookings, h]
    · simp only [Bool.not_eq_true] at h
      simp [scanBookings, h, ih]

theorem scanBookings_true_shape (rooms : List String) (st et : String)
    (bs : List Booking) (h : (scanBookings rooms st et bs).1 = true) :
    scanBookings rooms st et bs = (true, "Available") := by
  induction bs with
  | nil => rfl
  | cons b rest ih =>
    by_cases hc : timeConflict st et b.startTime b.endTime = true
    · simp [scanBookings, hc] at h
    · simp only [Bool.not_eq_true] at hc
      simp only [scanBookings, hc, Bool.false_eq_true, if_false] at h ⊢
      exact ih h

theorem scanBookings_shape (rooms : List String) (st et : String)
    (bs : List Booking) :
    scanBookings rooms st et bs = (true, "Available") ∨
      (scanBookings rooms st et bs).1 = false := by
  induction bs with
  | nil => exact Or.inl rfl
  | cons b rest ih =>
    by_cases hc : timeConflict st et b.startTime b.endTime = true
    · exact Or.inr (by simp [scanBookings, hc])
    · simp only [Bool.not_eq_true] at hc
      simpa [scanBookings, hc] using ih

theorem mem_bookingsQuery (db : DB) (rooms : List String) (sd ed : String)
    (b : Booking) :
    b ∈ bookingsQuery db rooms sd ed ↔
      (∃ i, (i, b) ∈ db.bookings) ∧ queryFilter rooms sd ed b = true := by
  constructor
  · intro h
    rcases List.mem_filter.mp h with ⟨hmem, hq⟩
    rcases List.mem_map.mp hmem with ⟨e, he, hsnd⟩
    exact ⟨⟨e.1, by simpa [← hsnd] using he⟩, hq⟩
  · rintro ⟨⟨i, hi⟩, hq⟩
    exact List.mem_filter.mpr ⟨List.mem_map.mpr ⟨(i, b), hi, rfl⟩, hq⟩

/-! ## Claim theorems -/

/-- C3: the time-range overlap test used by conflict detection (in both
merge variants of `check_room_availability`) is the half-open test
`A.start < B.end AND A.end > B.start`; concretely, 09:00-10:00 does not
conflict with 10:00-11:00, while 09:00-10:01 does. -/
theorem claim3_time_overlap_half_open :
    (∀ st et bst bet, timeConflict st et bst bet = (sLt st bet && sLt bst et)) ∧
    (∀ st et bst bet, timeConflict_v1 st et bst bet = (sLt st bet && sLt bst et)) ∧
    timeConflict "09:00" "10:00" "10:00" "11:00" = false ∧
    timeConflict "09:00" "10:01" "10:00" "11:00" = true ∧
    timeConflict_v1 "09:00" "10:00" "10:00" "11:00" = false ∧
    timeConflict_v1 "09:00" "10:01" "10:00" "11:00" = true :=
  ⟨timeConflict_eq, timeConflict_v1_eq, by decide, by decide, by decide, by decide⟩

/-- C6: a query with an empty room set is reported available by both merge
variants of `check_room_availability`, for every store, date range and
time range. -/
theorem claim6_empty_rooms_available (db : DB) (sd ed st et : String) :
    check_room_availability db [] sd ed st et = (true, "Available") ∧
    check_room_availability_v1 db [] sd ed st et = (true, "") := by
  constructor
  · unfold check_room_availability
    rw [bookingsQuery_empty_rooms]
    rfl
  · rfl

/-- C7: when the underlying booking query fails (missing index /
failed precondition, or any other error), `check_room_availability` fails
closed: it reports unavailable with a descriptive reason, and an
`available = true` answer can only arise from a served query. -/
theorem claim7_fail_closed :
    (∀ rooms sd ed st et m,
      check_room_availability_q (.error (.failedPrecondition m)) rooms sd ed st et =
        (false, "Database index missing: " ++ m)) ∧
    (∀ rooms sd ed st et m,
      check_room_availability_q (.error (.other m)) rooms sd ed st et =
        (false, "Unexpected error: " ++ m)) ∧
    (∀ q rooms sd ed st et,
      (check_room_availability_q q rooms sd ed st et).1 = true →
        ∃ db, q = Except.ok db) := by
  refine ⟨fun _ _ _ _ _ _ => rfl, fun _ _ _ _ _ _ => rfl, ?_⟩
  intro q rooms sd ed st et h
  match q with
  | .ok db => exact ⟨db, rfl⟩
  | .error (.failedPrecondition m) => simp [check_room_availability_q] at h
  | .error (.other m) => simp [check_room_availability_q] at h

theorem claim7_fail_closed_witness :
    ∃ db, (Except.ok emptyDB : Except QueryErr DB) = Except.ok db :=
  claim7_fail_closed.2.2 (Except.ok emptyDB) ["ARES"] "2024-01-01" "2024-01-01"
    "09:00" "10:00" (by decide)

/-- C2: `check_room_availability` reports unavailable exactly when some
stored booking with status `approved` has a room in the queried room set,
a date range overlapping the queried one under the inclusive test
(`query.start <= booking.end` and `query.end >= booking.start`), and a
time range overlapping the queried one under the half-open test; pending
and rejected bookings are never considered, and with no such approved
booking the result is `(true, "Available")`. -/
theorem claim2_availability_iff (db : DB) (rooms : List String)
    (sd ed st et : String) :
    ((check_room_availability db rooms sd ed st et).1 = false ↔
      ∃ b, (∃ i, (i, b) ∈ db.bookings) ∧ b.status = .approved ∧
        roomsIntersect rooms b.rooms = true ∧
        (sLe sd b.endDate = true ∧ sLe b.startDate ed = true) ∧
        (sLt st b.endTime = true ∧ sLt b.startTime et = true)) ∧
    ((check_room_availability db rooms sd ed st et).1 = true →
      check_room_availability db rooms sd ed st et = (true, "Available")) := by
  constructor
  · rw [check_room_availability, scanBookings_false_iff]
    constructor
    · rintro ⟨b, hmem, ht⟩
      rw [mem_bookingsQuery] at hmem
      rcases hmem with ⟨hex, hq⟩
      rw [queryFilter] at hq
      simp only [Bool.and_eq_true, beq_iff_eq] at hq
      rw [timeConflict_eq, Bool.and_eq_true] at ht
      exact ⟨b, hex, hq.1.1.2, hq.1.1.1, ⟨hq.2, hq.1.2⟩, ht⟩
    · rintro ⟨b, hex, hst, hri, ⟨hd1, hd2⟩, ⟨ht1, ht2⟩⟩
      refine ⟨b, ?_, ?_⟩
      · rw [mem_bookingsQuery]
        refine ⟨hex, ?_⟩
        rw [queryFilter]
        simp only [Bool.and_eq_true, beq_iff_eq]
        exact ⟨⟨⟨hri, hst⟩, hd2⟩, hd1⟩
      · rw [timeConflict_eq, Bool.and_eq_true]
        exact ⟨ht1, ht2⟩
  · intro h
    rcases scanBookings_shape rooms st et (bookingsQuery db rooms sd ed) with hs | hs
    · exact hs
    · rw [check_room_availability] at h
      rw [h] at hs
      cases hs

theorem claim2_availability_iff_witness :
    check_room_availability emptyDB ["ARES"] "2024-01-01" "2024-01-01"
      "09:00" "10:00" = (true, "Available") :=
  (claim2_availability_iff emptyDB ["ARES"] "2024-01-01" "2024-01-01"
    "09:00" "10:00").2 (by decide)

theorem check_empty_rooms_eq (db : DB) (sd ed st et : String) :
    check_room_availability db [] sd ed st et = (true, "Available") := by
  unfold check_room_availability
  rw [bookingsQuery_empty_rooms]
  rfl

theorem setStatus_fst (i : Nat) (s : BStatus) (e : Nat × Booking) :
    (setStatus i s e).1 = e.1 := by
  unfold setStatus
  split <;> rfl

theorem hasBooking_setStatus (db : DB) (i : Nat) (s : BStatus) (id : Nat) :
    hasBooking { db with bookings := db.bookings.map (setStatus i s) } id =
      hasBooking db id := by
  simp [hasBooking, List.any_map, Function.comp_def, setStatus_fst]

theorem setStatus_self (i : Nat) (s : BStatus) (b : Booking) :
    setStatus i s (i, b) = (i, { b with status := s }) := by
  simp [setStatus]

theorem setStatus_ne (i : Nat) (s : BStatus) (k : Nat) (b : Booking)
    (h : k ≠ i) : setStatus i s (k, b) = (k, b) := by
  simp [setStatus, h]

theorem mem_map_setStatus_ne (l : List (Nat × Booking)) (i s k b)
    (hk : k ≠ i) :
    (k, b) ∈ l.map (setStatus i s) ↔ (k, b) ∈ l := by
  constructor
  · intro hm
    rcases List.mem_map.mp hm with ⟨⟨k', b''⟩, he, hfe⟩
    by_cases h1 : k' = i
    · subst h1
      rw [setStatus_self] at hfe
      injection hfe with hfk hfb
      exact absurd hfk.symm hk
    · rw [setStatus_ne _ _ _ _ h1] at hfe
      rw [← hfe]
      exact he
  · intro hm
    exact List.mem_map.mpr ⟨(k, b), hm, setStatus_ne _ _ _ _ hk⟩

theorem mem_map_setStatus_self (l : List (Nat × Booking)) (i s b') :
    (i, b') ∈ l.map (setStatus i s) ↔
      ∃ b, (i, b) ∈ l ∧ b' = { b with status := s } := by
  constructor
  · intro hm
    rcases List.mem_map.mp hm with ⟨⟨k', b''⟩, he, hfe⟩
    by_cases h1 : k' = i
    · subst h1
      rw [setStatus_self] at hfe
      injection hfe with hfk hfb
      exact ⟨b'', he, hfb.symm⟩
    · rw [setStatus_ne _ _ _ _ h1] at hfe
      injection hfe with hfk hfb
      exact absurd hfk h1
  · rintro ⟨b, hb, rfl⟩
    exact List.mem_map.mpr ⟨(i, b), hb, setStatus_self i s b⟩

/-- C4: when the availability check reports unavailable, `book_room` fails
with the check's reason, the store is unchanged and the notifier does not
fire; when it reports available, a new booking with status `pending` and
the current timestamp is appended to the store, returned to the caller,
and the notifier fires. -/
theorem claim4_createBooking (db : DB) (d : BookRequest) (now : String) :
    (∀ msg,
      check_room_availability db d.rooms d.startDate d.endDate d.startTime d.endTime =
          (false, msg) →
        book_room db (some d) now = (.conflict msg, db, false)) ∧
    ((check_room_availability db d.rooms d.startDate d.endDate d.startTime d.endTime).1 =
        true →
      ∃ i b, book_room db (some d) now =
          (.success i b,
            { db with bookings := db.bookings ++ [(i, b)], nextId := db.nextId + 1 },
            true) ∧
        b.status = .pending ∧ b.createdAt = now ∧ b.rooms = d.rooms) := by
  constructor
  · intro msg h
    simp [book_room, h]
  · intro h
    refine ⟨db.nextId,
      { eventName := d.eventName, rooms := d.rooms,
        startDate := d.startDate, endDate := d.endDate,
        startTime := d.startTime, endTime := d.endTime,
        participants := d.participants, department := d.department,
        notes := d.notes, status := .pending, createdAt := now }, ?_, rfl, rfl, rfl⟩
    simp [book_room, h]

theorem claim4_createBooking_witness :
    book_room dbOneApproved (some reqOverlap) "2024-01-02T00:00:00" =
      (.conflict ("Room(s) " ++ toString ["ARES"] ++ " already booked for overlapping time"),
        dbOneApproved, false) ∧
    ∃ i b, book_room emptyDB (some reqA) "2024-01-02T00:00:00" =
        (.success i b,
          { emptyDB with bookings := emptyDB.bookings ++ [(i, b)], nextId := emptyDB.nextId + 1 },
          true) ∧
      b.status = .pending ∧ b.createdAt = "2024-01-02T00:00:00" ∧ b.rooms = reqA.rooms :=
  ⟨(claim4_createBooking dbOneApproved reqOverlap "2024-01-02T00:00:00").1 _ (by decide),
   (claim4_createBooking emptyDB reqA "2024-01-02T00:00:00").2 (by decide)⟩

/-- C5 counterexample: a request whose room set is empty is not rejected
with a `ValidationError`: `book_room` runs the (trivially passing)
availability check, persists a pending booking with no rooms, and reports
success — refuting the claim that `createBooking` validates a non-empty
room set and persists nothing on a missing field. -/
theorem claim5_counterexample :
    book_room emptyDB (some reqNoRooms) "2024-02-01T08:00:00" =
      (.success 0 bookingGhost,
        { rooms := [], bookings := [(0, bookingGhost)], nextId := 1 }, true) := by
  decide

/-- C5 amended: `book_room` rejects only an entirely missing request body
("Missing booking data"), leaving the store unchanged and not firing the
notifier; it performs no per-field validation — in particular a request
with an empty room set passes the availability check trivially and is
persisted as a pending booking. -/
theorem claim5_validation_amended (db : DB) (now : String) :
    book_room db none now = (.missingData, db, false) ∧
    ∀ d : BookRequest, d.rooms = [] →
      ∃ i b, book_room db (some d) now =
          (.success i b,
            { db with bookings := db.bookings ++ [(i, b)], nextId := db.nextId + 1 },
            true) ∧
        b.status = .pending ∧ b.rooms = [] := by
  constructor
  · rfl
  · intro d hd
    refine ⟨db.nextId,
      { eventName := d.eventName, rooms := d.rooms,
        startDate := d.startDate, endDate := d.endDate,
        startTime := d.startTime, endTime := d.endTime,
        participants := d.participants, department := d.department,
        notes := d.notes, status := .pending, createdAt := now }, ?_, rfl, hd⟩
    have hav : check_room_availability db d.rooms d.startDate d.endDate d.startTime
        d.endTime = (true, "Available") := by
      rw [hd]; exact check_empty_rooms_eq db d.startDate d.endDate d.startTime d.endTime
    simp [book_room, hav]

theorem claim5_validation_amended_witness :
    book_room emptyDB none "2024-02-01T08:00:00" = (.missingData, emptyDB, false) ∧
    ∃ i b, book_room emptyDB (some reqNoRooms) "2024-02-01T08:00:00" =
        (.success i b,
          { emptyDB with bookings := emptyDB.bookings ++ [(i, b)], nextId := emptyDB.nextId + 1 },
          true) ∧
      b.status = .pending ∧ b.rooms = [] :=
  ⟨(claim5_validation_amended emptyDB "2024-02-01T08:00:00").1,
   (claim5_validation_amended emptyDB "2024-02-01T08:00:00").2 reqNoRooms rfl⟩

/-- C8: for any stored booking id, whatever its current status (including
rejected), `approve_booking` succeeds, fires the notifier and sets exactly
that document's status to `approved`; no availability check is involved
(presence of the id is the only hypothesis), and rejecting a booking and
then approving the same id succeeds. -/
theorem claim8_approve_unconditional (db : DB) (id : Nat)
    (h : hasBooking db id = true) :
    (approve_booking db (some id)).1 = .ok ∧
    (approve_booking db (some id)).2.2 = true ∧
    (∀ b, (id, b) ∈ db.bookings →
      (id, { b with status := .approved }) ∈ (approve_booking db (some id)).2.1.bookings) ∧
    (approve_booking (reject_booking db (some id)).2.1 (some id)).1 = .ok := by
  have ha : approve_booking db (some id) =
      (.ok, { db with bookings := db.bookings.map (setStatus id .approved) }, true) := by
    simp [approve_booking, h]
  have hr : reject_booking db (some id) =
      (.ok, { db with bookings := db.bookings.map (setStatus id .rejected) }, true) := by
    simp [reject_booking, h]
  refine ⟨by rw [ha], by rw [ha], ?_, ?_⟩
  · intro b hb
    rw [ha]
    exact (mem_map_setStatus_self db.bookings id .approved _).mpr ⟨b, hb, rfl⟩
  · rw [hr]
    have h2 : hasBooking { db with bookings := db.bookings.map (setStatus id .rejected) }
        id = true := by
      rw [hasBooking_setStatus]; exact h
    simp [approve_booking, h2]

theorem claim8_approve_unconditional_witness :
    (approve_booking dbOneRejected (some 0)).1 = .ok ∧
    (0, { bookingRejected with status := .approved }) ∈
      (approve_booking dbOneRejected (some 0)).2.1.bookings ∧
    (approve_booking (reject_booking dbOneRejected (some 0)).2.1 (some 0)).1 = .ok := by
  have h := claim8_approve_unconditional dbOneRejected 0 (by decide)
  exact ⟨h.1, h.2.2.1 bookingRejected (by decide), h.2.2.2⟩

/-- C9 counterexample: id 7 is not present in the empty store, yet
`delete_booking` reports success (and fires the notifier) instead of a
`NotFoundError` — Firestore's `delete` is idempotent and the route has no
existence check. -/
theorem claim9_counterexample :
    hasBooking emptyDB 7 = false ∧
    delete_booking emptyDB (some 7) = (.ok, emptyDB, true) := by
  constructor
  · decide
  · decide

/-- C9 amended: `delete_booking` reports success for every id: when the id
is present the record is removed entirely regardless of its status, and
when it is absent the store is unchanged but the operation still reports
success (no `NotFoundError`). -/
theorem claim9_delete_amended (db : DB) (id : Nat) :
    (delete_booking db (some id)).1 = .ok ∧
    (delete_booking db (some id)).2.2 = true ∧
    (∀ b, (id, b) ∉ (delete_booking db (some id)).2.1.bookings) ∧
    (∀ k b, k ≠ id →
      ((k, b) ∈ (delete_booking db (some id)).2.1.bookings ↔ (k, b) ∈ db.bookings)) ∧
    (delete_booking db (some id)).2.1.rooms = db.rooms := by
  refine ⟨rfl, rfl, ?_, ?_, rfl⟩
  · intro b hb
    rcases List.mem_filter.mp hb with ⟨-, hcond⟩
    simp at hcond
  · intro k b hk
    constructor
    · intro hb
      exact (List.mem_filter.mp hb).1
    · intro hb
      exact List.mem_filter.mpr ⟨hb, by simp [hk]⟩

theorem claim9_delete_amended_witness :
    (delete_booking dbOneApproved (some 0)).1 = .ok ∧
    (0, bookingA) ∉ (delete_booking dbOneApproved (some 0)).2.1.bookings ∧
    ((1, bookingA) ∈ (delete_booking dbOneApproved (some 0)).2.1.bookings ↔
      (1, bookingA) ∈ dbOneApproved.bookings) := by
  have h := claim9_delete_amended dbOneApproved 0
  exact ⟨h.1, h.2.2.1 bookingA, h.2.2.2.1 1 bookingA (by decide)⟩

/-- C10: for a stored booking id, `approve_booking` and `reject_booking`
change only the `status` field of the targeted document — the result's
document is `{ old with status := ... }`, so `eventName`, `rooms`,
`startDate`, `endDate`, `startTime`, `endTime`, `participants`,
`department`, `notes` and `createdAt` are untouched — every other booking
document is unchanged, and the `rooms` collection is unchanged. -/
theorem claim10_status_update_frame (db : DB) (id : Nat)
    (h : hasBooking db id = true) :
    ((approve_booking db (some id)).2.1.rooms = db.rooms) ∧
    (∀ k b, k ≠ id →
      ((k, b) ∈ (approve_booking db (some id)).2.1.bookings ↔ (k, b) ∈ db.bookings)) ∧
    (∀ b', (id, b') ∈ (approve_booking db (some id)).2.1.bookings ↔
      ∃ b, (id, b) ∈ db.bookings ∧ b' = { b with status := .approved }) ∧
    ((reject_booking db (some id)).2.1.rooms = db.rooms) ∧
    (∀ k b, k ≠ id →
      ((k, b) ∈ (reject_booking db (some id)).2.1.bookings ↔ (k, b) ∈ db.bookings)) ∧
    (∀ b', (id, b') ∈ (reject_booking db (some id)).2.1.bookings ↔
      ∃ b, (id, b) ∈ db.bookings ∧ b' = { b with status := .rejected }) := by
  have ha : approve_booking db (some id) =
      (.ok, { db with bookings := db.bookings.map (setStatus id .approved) }, true) := by
    simp [approve_booking, h]
  have hr : reject_booking db (some id) =
      (.ok, { db with bookings := db.bookings.map (setStatus id .rejected) }, true) := by
    simp [reject_booking, h]
  rw [ha, hr]
  exact ⟨rfl,
    fun k b hk => mem_map_setStatus_ne db.bookings id .approved k b hk,
    fun b' => mem_map_setStatus_self db.bookings id .approved b',
    rfl,
    fun k b hk => mem_map_setStatus_ne db.bookings id .rejected k b hk,
    fun b' => mem_map_setStatus_self db.bookings id .rejected b'⟩

theorem claim10_status_update_frame_witness :
    (approve_booking dbOneApproved (some 0)).2.1.rooms = dbOneApproved.rooms ∧
    ((1, bookingA) ∈ (approve_booking dbOneApproved (some 0)).2.1.bookings ↔
      (1, bookingA) ∈ dbOneApproved.bookings) ∧
    (0, { bookingA with status := .rejected }) ∈
      (reject_booking dbOneApproved (some 0)).2.1.bookings := by
  have h := claim10_status_update_frame dbOneApproved 0 (by decide)
  exact ⟨h.1, h.2.1 1 bookingA (by decide),
    (h.2.2.2.2.2 { bookingA with status := .rejected }).mpr ⟨bookingA, by decide, rfl⟩⟩

theorem approvedConflict_not_approved_left (a b : Booking)
    (h : a.status ≠ .approved) : approvedConflict a b = false := by
  unfold approvedConflict
  rw [beq_eq_false_iff_ne.mpr h]
  simp

theorem approvedConflict_not_approved_right (a b : Booking)
    (h : b.status ≠ .approved) : approvedConflict a b = false := by
  unfold approvedConflict
  rw [beq_eq_false_iff_ne.mpr h]
  simp

theorem setStatus_pair_eq (i : Nat) (s : BStatus) (e : Nat × Booking)
    (h : e.1 = i) : setStatus i s e = (e.1, { e.2 with status := s }) := by
  simp [setStatus, h]

theorem setStatus_pair_ne (i : Nat) (s : BStatus) (e : Nat × Booking)
    (h : e.1 ≠ i) : setStatus i s e = e := by
  simp [setStatus, h]

theorem conflictFree_book_room (db : DB) (d : BookRequest) (now : String)
    (h : conflictFree db) : conflictFree (book_room db (some d) now).2.1 := by
  by_cases hav :
      (check_room_availability db d.rooms d.startDate d.endDate d.startTime d.endTime).1 = true
  · simp only [book_room, hav, Bool.not_true, Bool.false_eq_true, if_false]
    unfold conflictFree at h ⊢
    rw [List.pairwise_append]
    refine ⟨h, List.pairwise_singleton _ _, ?_⟩
    rintro a ha b hb
    rw [List.mem_singleton] at hb
    subst hb
    exact approvedConflict_not_approved_right _ _ (by intro hx; cases hx)
  · rw [Bool.not_eq_true] at hav
    simp only [book_room, hav, Bool.not_false, if_true]
    exact h

theorem conflictFree_reject (db : DB) (id : Nat) (h : conflictFree db) :
    conflictFree (reject_booking db (some id)).2.1 := by
  by_cases hb : hasBooking db id = true
  · simp only [reject_booking, hb, if_true]
    unfold conflictFree at h ⊢
    rw [List.pairwise_map]
    refine h.imp ?_
    intro a b hab
    by_cases ha : a.1 = id
    · rw [setStatus_pair_eq id .rejected a ha]
      exact approvedConflict_not_approved_left _ _ (by intro hx; cases hx)
    · rw [setStatus_pair_ne id .rejected a ha]
      by_cases hbi : b.1 = id
      · rw [setStatus_pair_eq id .rejected b hbi]
        exact approvedConflict_not_approved_right _ _ (by intro hx; cases hx)
      · rw [setStatus_pair_ne id .rejected b hbi]
        exact hab
  · rw [Bool.not_eq_true] at hb
    simp only [reject_booking, hb, Bool.false_eq_true, if_false]
    exact h

theorem conflictFree_delete (db : DB) (id : Nat) (h : conflictFree db) :
    conflictFree (delete_booking db (some id)).2.1 := by
  unfold conflictFree at h ⊢
  exact List.Pairwise.sublist (List.filter_sublist _) h

theorem conflictFree_approve (db : DB) (id : Nat)
    (hnd : db.bookings.Pairwise (fun x y => x.1 ≠ y.1))
    (hsafe : approveSafe db id = true)
    (h : conflictFree db) :
    conflictFree (approve_booking db (some id)).2.1 := by
  by_cases hb : hasBooking db id = true
  · simp only [approve_booking, hb, if_true]
    unfold conflictFree at h ⊢
    rw [List.pairwise_map]
    refine (h.and hnd).imp_of_mem ?_
    intro a b ha hbmem hab
    rcases hab with ⟨hc, hne⟩
    rw [approveSafe, List.all_eq_true] at hsafe
    by_cases ha1 : a.1 = id
    · rw [setStatus_pair_eq id .approved a ha1]
      have hx := hsafe a ha
      rw [Bool.or_eq_true] at hx
      rcases hx with hx | hx
      · rw [Bool.not_eq_true', beq_eq_false_iff_ne] at hx
        exact absurd ha1 hx
      · rw [List.all_eq_true] at hx
        have hy := hx b hbmem
        rw [Bool.or_eq_true] at hy
        rcases hy with hy | hy
        · rw [beq_iff_eq] at hy
          exact absurd (ha1.trans hy.symm) hne
        · rw [Bool.and_eq_true, Bool.not_eq_true', Bool.not_eq_true'] at hy
          by_cases hb1 : b.1 = id
          · exact absurd (ha1.trans hb1.symm) hne
          · rw [setStatus_pair_ne id .approved b hb1]
            exact hy.1
    · rw [setStatus_pair_ne id .approved a ha1]
      by_cases hb1 : b.1 = id
      · rw [setStatus_pair_eq id .approved b hb1]
        have hx := hsafe b hbmem
        rw [Bool.or_eq_true] at hx
        rcases hx with hx | hx
        · rw [Bool.not_eq_true', beq_eq_false_iff_ne] at hx
          exact absurd hb1 hx
        · rw [List.all_eq_true] at hx
          have hy := hx a ha
          rw [Bool.or_eq_true] at hy
          rcases hy with hy | hy
          · rw [beq_iff_eq] at hy
            exact absurd hy ha1
          · rw [Bool.and_eq_true, Bool.not_eq_true', Bool.not_eq_true'] at hy
            exact hy.2
      · rw [setStatus_pair_ne id .approved b hb1]
        exact hc
  · rw [Bool.not_eq_true] at hb
    simp only [approve_booking, hb, Bool.false_eq_true, if_false]
    exact h

theorem WFdb_applyOp (db : DB) (op : Op) (h : WFdb db) : WFdb (applyOp db op) := by
  rcases h with ⟨h1, h2⟩
  cases op with
  | create d now =>
    simp only [applyOp]
    by_cases hav :
        (check_room_availability db d.rooms d.startDate d.endDate d.startTime d.endTime).1 = true
    · simp only [book_room, hav, Bool.not_true, Bool.false_eq_true, if_false]
      constructor
      · rw [List.pairwise_append]
        refine ⟨h1, List.pairwise_singleton _ _, ?_⟩
        intro a ha b hbmem
        rw [List.mem_singleton] at hbmem
        subst hbmem
        exact Nat.ne_of_lt (h2 a ha)
      · intro e he
        rw [List.mem_append] at he
        rcases he with he | he
        · exact Nat.lt_succ_of_lt (h2 e he)
        · rw [List.mem_singleton] at he
          subst he
          exact Nat.lt_succ_self _
    · rw [Bool.not_eq_true] at hav
      simp only [book_room, hav, Bool.not_false, if_true]
      exact ⟨h1, h2⟩
  | approve id =>
    simp only [applyOp]
    by_cases hb : hasBooking db id = true
    · simp only [approve_booking, hb, if_true]
      constructor
      · rw [List.pairwise_map]
        refine h1.imp ?_
        intro a b hab
        rw [setStatus_fst, setStatus_fst]
        exact hab
      · intro e he
        rcases List.mem_map.mp he with ⟨a, ha, rfl⟩
        rw [setStatus_fst]
        exact h2 a ha
    · rw [Bool.not_eq_true] at hb
      simp only [approve_booking, hb, Bool.false_eq_true, if_false]
      exact ⟨h1, h2⟩
  | reject id =>
    simp only [applyOp]
    by_cases hb : hasBooking db id = true
    · simp only [reject_booking, hb, if_true]
      constructor
      · rw [List.pairwise_map]
        refine h1.imp ?_
        intro a b hab
        rw [setStatus_fst, setStatus_fst]
        exact hab
      · intro e he
        rcases List.mem_map.mp he with ⟨a, ha, rfl⟩
        rw [setStatus_fst]
        exact h2 a ha
    · rw [Bool.not_eq_true] at hb
      simp only [reject_booking, hb, Bool.false_eq_true, if_false]
      exact ⟨h1, h2⟩
  | del id =>
    simp only [applyOp, delete_booking]
    constructor
    · exact List.Pairwise.sublist (List.filter_sublist _) h1
    · intro e he
      exact h2 e ((List.filter_sublist _).subset he)

/-- C1 counterexample: starting from the empty (conflict-free) store, the
sequence `conflictOps` — create two bookings for room "ARES" on the same
date with times 09:00-10:00 and 09:30-10:30 (both availability checks
pass, since neither booking is approved yet), then approve both — leaves
two approved bookings with intersecting rooms and overlapping date and
time ranges, because `approve_booking` runs no availability re-check. -/
theorem claim1_counterexample :
    conflictFree emptyDB ∧ ¬ conflictFree (runOps emptyDB conflictOps) := by
  constructor
  · decide
  · decide

/-- C1 amended: the invariant holds for every operation sequence in which
each approval is of a booking that conflicts with no other then-approved
booking (`safeOpsB`): starting from a well-formed conflict-free store,
createBooking/reject/delete never break it, and such safe approvals keep
it.  (The unrestricted claim fails: `approve_booking` re-runs no
availability check, so approving two conflicting pending bookings breaks
the invariant.) -/
theorem claim1_invariant_amended (db : DB) (ops : List Op)
    (hwf : WFdb db) (hcf : conflictFree db) (hsafe : safeOpsB db ops = true) :
    conflictFree (runOps db ops) := by
  induction ops generalizing db with
  | nil => exact hcf
  | cons op rest ih =>
    simp only [safeOpsB, Bool.and_eq_true] at hsafe
    rcases hsafe with ⟨hs1, hs2⟩
    have hstep : conflictFree (applyOp db op) := by
      cases op with
      | create d now => exact conflictFree_book_room db d now hcf
      | approve id => exact conflictFree_approve db id hwf.1 hs1 hcf
      | reject id => exact conflictFree_reject db id hcf
      | del id => exact conflictFree_delete db id hcf
    simp only [runOps]
    exact ih (applyOp db op) (WFdb_applyOp db op hwf) hstep hs2

theorem claim1_invariant_amended_witness :
    conflictFree (runOps emptyDB safeOpsExample) :=
  claim1_invariant_amended emptyDB safeOpsExample (by decide) (by decide) (by decide)
